import Mathlib

/-!
Verification of the swap-execution core in
`src/programs/amm/src/instructions/swap_v2.rs` against its design
specification.

The embedding is a shallow one: token amounts (`u64`) and prices (`u128`)
become `Nat` (no arithmetic in the file overflows the machine range on the
inputs considered, and the source builds with overflow checks, so wrapping
never occurs on a successful path), account and mint addresses become `Nat`
identifiers, account balances become a function `Nat → Nat`, and fallible
execution returns `Except ErrorCode`.  Every run additionally produces a
`List Step` trace that records, in source order, which operations of
`exact_internal_v2` executed; this makes the ordering of the source's
statements (fee adjustment, validation, the two transfer legs, reload,
event emission) an observable of the model.
-/

namespace RaydiumSwapV2

/-- Per-mint fee-on-transfer parameters (spec §3 `MintFeeConfig`): a fee
rate in basis points and a maximum fee cap.  A mint without the extension
is represented as `Option.none`. -/
structure FeeConfig where
  rateBps : Nat
  maxFee : Nat
  deriving DecidableEq

/-- Modelled from the spec: `util::get_transfer_fee` is referenced at
lines 93 and 130 of `swap_v2.rs` but its definition is not under `src/`.
Spec §4.1: `forwardFee(mint, amount)`: if the mint carries a fee
configuration, `fee = min(amount * rateBps / 10000, maxFee)` using floor
division; otherwise `fee = 0`. -/
def get_transfer_fee (cfg : Option FeeConfig) (amount : Nat) : Nat :=
  match cfg with
  | none => 0
  | some c => min (amount * c.rateBps / 10000) c.maxFee

/-- Modelled from the spec: `util::get_transfer_inverse_fee` is referenced
at lines 97 and 131 of `swap_v2.rs` but its definition is not under
`src/`.  Spec §4.1: `inverseFee(mint, netAmount)` computes the fee that
must be added on top of `netAmount` so that transferring `netAmount + fee`
and applying `forwardFee` to it yields the fee back, capped at the mint's
maximum fee; the exact solution for a rate `r < 10000` is
`ceil(netAmount * r / (10000 - r))`. -/
def get_transfer_inverse_fee (cfg : Option FeeConfig) (netAmount : Nat) : Nat :=
  match cfg with
  | none => 0
  | some c =>
    if c.rateBps = 0 then 0
    else min ((netAmount * c.rateBps + (10000 - c.rateBps) - 1) / (10000 - c.rateBps)) c.maxFee

/-- The maximum-fee cap of a fee configuration; a mint without the
extension charges no fee, so its cap is 0. -/
def capOf : Option FeeConfig → Nat
  | none => 0
  | some c => c.maxFee

/-- The fields of `PoolState` read by `swap_v2.rs` (lines 103, 105,
176-178). -/
structure PoolState where
  token_mint_0 : Nat
  token_mint_1 : Nat
  open_time : Nat
  sqrt_price_x64 : Nat
  liquidity : Nat
  tick_current : Int
  deriving DecidableEq

/-- The accounts of the `SwapSingleV2` context (lines 15-76), as abstract
identifiers.  `inputVaultMint` is the mint of `input_vault`: the Anchor
constraint at line 62 (`address = input_vault.mint`) forces the
`input_vault_mint` account to be the mint named in the input vault, and
symmetrically for `outputVaultMint` (line 68). -/
structure SwapAccounts where
  payer : Nat
  poolStateKey : Nat
  inputTokenAccount : Nat
  outputTokenAccount : Nat
  inputVault : Nat
  outputVault : Nat
  inputVaultMint : Nat
  outputVaultMint : Nat
  deriving DecidableEq

/-- Ambient execution context: the clock (line 88) and the per-mint fee
configurations consulted by the fee helpers. -/
structure SwapEnv where
  blockTimestamp : Nat
  feeConfig : Nat → Option FeeConfig

/-- The error classifications of one invocation, named per the spec's
error taxonomy (§7).  The repository's `error.rs` is not under `src/`;
`TooLittleOutputReceived` and `TooMuchInputPaid` are named explicitly at
lines 208 and 214, the failed `require_gt!` at line 103 is the spec's
`PoolNotOpen`, and a failed transfer leg is `InsufficientBalance`. -/
inductive ErrorCode where
  | poolNotOpen
  | insufficientBalance
  | tooLittleOutputReceived
  | tooMuchInputPaid
  deriving DecidableEq

/-- The `SwapEvent` emitted at lines 166-179. -/
structure SwapEvent where
  pool_state : Nat
  sender : Nat
  token_account_0 : Nat
  token_account_1 : Nat
  amount_0 : Nat
  transfer_fee_0 : Nat
  amount_1 : Nat
  transfer_fee_1 : Nat
  zero_for_one : Bool
  sqrt_price_x64 : Nat
  liquidity : Nat
  tick : Int
  deriving DecidableEq

/-- One observable step of `exact_internal_v2`, recorded in source order:
`feeAdjust` (lines 91-100, with the adjusted amount), `validateOpenTime`
(line 103), `resolveDirection` (lines 105-127), `computeFees`
(lines 130-137), `transferIn` (lines 140-148, source/vault/amount),
`transferOut` (lines 151-159, vault/destination/amount), `reload`
(lines 162-163) and `emitEvent` (lines 166-179). -/
inductive Step where
  | feeAdjust (adjusted : Nat)
  | validateOpenTime
  | resolveDirection (zeroForOne : Bool)
  | computeFees (feeInput feeOutput : Nat)
  | transferIn (source vault amount : Nat)
  | transferOut (vault destination amount : Nat)
  | reload
  | emitEvent (ev : SwapEvent)
  deriving DecidableEq

/-- Modelled from the spec: the balance mutation of the low-level
transfer execution (§6 `moveTokens`), which is not under `src/`.  The
source account is debited the full moved amount; a fee-on-transfer mint
"deducts a configured fee from the moved amount at transfer time"
(glossary), so the destination is credited the moved amount minus the
forward fee of the moved mint. -/
def applyTransfer (cfg : Option FeeConfig) (bal : Nat → Nat)
    (source dest amount : Nat) : Nat → Nat :=
  let afterDebit : Nat → Nat := fun a => if a = source then bal source - amount else bal a
  fun a =>
    if a = dest then afterDebit dest + (amount - get_transfer_fee cfg amount)
    else afterDebit a

/-- Lines 91-100 of `swap_v2.rs`: the fee adjustment that shadows
`amount_specified`.  For an exact input the forward transfer fee of the
caller-designated input vault mint is subtracted; for an exact output the
inverse transfer fee of the caller-designated output vault mint is
added. -/
def adjusted_amount_specified (env : SwapEnv) (ctx : SwapAccounts)
    (amount_specified : Nat) (is_base_input : Bool) : Nat :=
  if is_base_input then
    amount_specified - get_transfer_fee (env.feeConfig ctx.inputVaultMint) amount_specified
  else
    amount_specified + get_transfer_inverse_fee (env.feeConfig ctx.outputVaultMint) amount_specified

/-- Line 105: `zero_for_one = (input_vault.mint == pool.token_mint_0)`. -/
def zero_for_one (ctx : SwapAccounts) (pool : PoolState) : Bool :=
  ctx.inputVaultMint == pool.token_mint_0

/-- Lines 108-127: the canonicalized source account of the inbound leg. -/
def input_account (ctx : SwapAccounts) (pool : PoolState) : Nat :=
  if zero_for_one ctx pool then ctx.inputTokenAccount else ctx.outputTokenAccount

/-- Lines 108-127: the canonicalized destination account of the outbound
leg. -/
def output_account (ctx : SwapAccounts) (pool : PoolState) : Nat :=
  if zero_for_one ctx pool then ctx.outputTokenAccount else ctx.inputTokenAccount

/-- Lines 108-127: the canonicalized vault receiving the inbound leg. -/
def input_vault (ctx : SwapAccounts) (pool : PoolState) : Nat :=
  if zero_for_one ctx pool then ctx.inputVault else ctx.outputVault

/-- Lines 108-127: the canonicalized vault paying the outbound leg. -/
def output_vault (ctx : SwapAccounts) (pool : PoolState) : Nat :=
  if zero_for_one ctx pool then ctx.outputVault else ctx.inputVault

/-- Lines 108-127: the canonicalized input-side mint. -/
def input_mint (ctx : SwapAccounts) (pool : PoolState) : Nat :=
  if zero_for_one ctx pool then ctx.inputVaultMint else ctx.outputVaultMint

/-- Lines 108-127: the canonicalized output-side mint. -/
def output_mint (ctx : SwapAccounts) (pool : PoolState) : Nat :=
  if zero_for_one ctx pool then ctx.outputVaultMint else ctx.inputVaultMint

/-- Line 130: `transfer_fee_input`, the forward fee of the canonical input
mint on the (already fee-adjusted) specified amount. -/
def transfer_fee_input (env : SwapEnv) (ctx : SwapAccounts) (pool : PoolState)
    (amount_specified : Nat) (is_base_input : Bool) : Nat :=
  get_transfer_fee (env.feeConfig (input_mint ctx pool))
    (adjusted_amount_specified env ctx amount_specified is_base_input)

/-- Line 131: `transfer_fee_output`, the inverse fee of the canonical
output mint on the (already fee-adjusted) specified amount. -/
def transfer_fee_output (env : SwapEnv) (ctx : SwapAccounts) (pool : PoolState)
    (amount_specified : Nat) (is_base_input : Bool) : Nat :=
  get_transfer_inverse_fee (env.feeConfig (output_mint ctx pool))
    (adjusted_amount_specified env ctx amount_specified is_base_input)

/-- Lines 133-137: `amount_without_fee`, the amount later moved on the
outbound leg. -/
def amount_without_fee (env : SwapEnv) (ctx : SwapAccounts) (pool : PoolState)
    (amount_specified : Nat) (is_base_input : Bool) : Nat :=
  if zero_for_one ctx pool then
    adjusted_amount_specified env ctx amount_specified is_base_input -
      transfer_fee_output env ctx pool amount_specified is_base_input
  else
    adjusted_amount_specified env ctx amount_specified is_base_input -
      transfer_fee_input env ctx pool amount_specified is_base_input

/-- The balances after the inbound leg (lines 140-148) has executed. -/
def balances_after_in (env : SwapEnv) (ctx : SwapAccounts) (pool : PoolState)
    (bal : Nat → Nat) (amount_specified : Nat) (is_base_input : Bool) : Nat → Nat :=
  applyTransfer (env.feeConfig (input_mint ctx pool)) bal
    (input_account ctx pool) (input_vault ctx pool)
    (adjusted_amount_specified env ctx amount_specified is_base_input)

/-- The balances after the outbound leg (lines 151-159) has executed. -/
def balances_after_out (env : SwapEnv) (ctx : SwapAccounts) (pool : PoolState)
    (bal : Nat → Nat) (amount_specified : Nat) (is_base_input : Bool) : Nat → Nat :=
  applyTransfer (env.feeConfig (output_mint ctx pool))
    (balances_after_in env ctx pool bal amount_specified is_base_input)
    (output_vault ctx pool) (output_account ctx pool)
    (amount_without_fee env ctx pool amount_specified is_base_input)

/-- Lines 182-186: the returned amount is the reloaded absolute balance of
the caller-designated output account for an exact input, and of the
caller-designated input account for an exact output. -/
def amount_result_of (env : SwapEnv) (ctx : SwapAccounts) (pool : PoolState)
    (bal : Nat → Nat) (amount_specified : Nat) (is_base_input : Bool) : Nat :=
  if is_base_input then
    balances_after_out env ctx pool bal amount_specified is_base_input ctx.outputTokenAccount
  else
    balances_after_out env ctx pool bal amount_specified is_base_input ctx.inputTokenAccount

/-- Lines 166-179: the emitted `SwapEvent`.  The price/liquidity/tick
snapshot re-reads the pool, which no step of the function has mutated. -/
def swap_event_of (env : SwapEnv) (ctx : SwapAccounts) (pool : PoolState)
    (amount_specified : Nat) (is_base_input : Bool) : SwapEvent :=
  { pool_state := ctx.poolStateKey
    sender := ctx.payer
    token_account_0 := input_account ctx pool
    token_account_1 := output_account ctx pool
    amount_0 :=
      if zero_for_one ctx pool then
        adjusted_amount_specified env ctx amount_specified is_base_input
      else amount_without_fee env ctx pool amount_specified is_base_input
    transfer_fee_0 := transfer_fee_input env ctx pool amount_specified is_base_input
    amount_1 :=
      if zero_for_one ctx pool then
        amount_without_fee env ctx pool amount_specified is_base_input
      else adjusted_amount_specified env ctx amount_specified is_base_input
    transfer_fee_1 := transfer_fee_output env ctx pool amount_specified is_base_input
    zero_for_one := zero_for_one ctx pool
    sqrt_price_x64 := pool.sqrt_price_x64
    liquidity := pool.liquidity
    tick := pool.tick_current }

/-- The trace of a run of `exact_internal_v2` that reaches the final
return: fee adjustment first (lines 91-100), then the open-time check
(line 103), direction resolution (lines 105-127), fee computation
(lines 130-137), the inbound then the outbound transfer (lines 140-159),
the account reloads (lines 162-163) and the event emission
(lines 166-179). -/
def success_trace (env : SwapEnv) (ctx : SwapAccounts) (pool : PoolState)
    (amount_specified : Nat) (is_base_input : Bool) : List Step :=
  [Step.feeAdjust (adjusted_amount_specified env ctx amount_specified is_base_input),
   Step.validateOpenTime,
   Step.resolveDirection (zero_for_one ctx pool),
   Step.computeFees (transfer_fee_input env ctx pool amount_specified is_base_input)
     (transfer_fee_output env ctx pool amount_specified is_base_input),
   Step.transferIn (input_account ctx pool) (input_vault ctx pool)
     (adjusted_amount_specified env ctx amount_specified is_base_input),
   Step.transferOut (output_vault ctx pool) (output_account ctx pool)
     (amount_without_fee env ctx pool amount_specified is_base_input),
   Step.reload,
   Step.emitEvent (swap_event_of env ctx pool amount_specified is_base_input)]

/-- The outcome of a successful invocation: the returned amount, the pool
state as it stands afterwards, the final balances, and the emitted
event. -/
structure SwapOutcome where
  amountResult : Nat
  pool : PoolState
  balances : Nat → Nat
  event : SwapEvent

/-- Shallow embedding of `exact_internal_v2` (lines 80-187 of
`swap_v2.rs`).  The `sqrt_price_limit_x64` parameter and the remaining
(tick-array) accounts are accepted but never read by the source body, and
nothing in the body calls `swap_internal` or writes to the pool, so the
pool state is returned unchanged.  Failures mirror the source's early
returns: the failed `require_gt!` at line 103 aborts after the fee
adjustment of lines 91-100 has already run, and a transfer leg fails with
the spec's `InsufficientBalance` (§6 `moveTokens`) when its source cannot
cover the moved amount, aborting with the trace accumulated so far. -/
def exact_internal_v2 (env : SwapEnv) (ctx : SwapAccounts) (pool : PoolState)
    (bal : Nat → Nat) (amount_specified : Nat) (sqrt_price_limit_x64 : Nat)
    (is_base_input : Bool) : Except ErrorCode SwapOutcome × List Step :=
  -- lines 91-100 execute before the check at line 103
  if env.blockTimestamp ≤ pool.open_time then
    (.error .poolNotOpen,
     [Step.feeAdjust (adjusted_amount_specified env ctx amount_specified is_base_input)])
  else if bal (input_account ctx pool) <
      adjusted_amount_specified env ctx amount_specified is_base_input then
    -- the inbound leg (lines 140-148) cannot be covered by its source
    (.error .insufficientBalance,
     [Step.feeAdjust (adjusted_amount_specified env ctx amount_specified is_base_input),
      Step.validateOpenTime,
      Step.resolveDirection (zero_for_one ctx pool),
      Step.computeFees (transfer_fee_input env ctx pool amount_specified is_base_input)
        (transfer_fee_output env ctx pool amount_specified is_base_input)])
  else if balances_after_in env ctx pool bal amount_specified is_base_input
      (output_vault ctx pool) <
      amount_without_fee env ctx pool amount_specified is_base_input then
    -- the outbound leg (lines 151-159) cannot be covered by the vault
    (.error .insufficientBalance,
     [Step.feeAdjust (adjusted_amount_specified env ctx amount_specified is_base_input),
      Step.validateOpenTime,
      Step.resolveDirection (zero_for_one ctx pool),
      Step.computeFees (transfer_fee_input env ctx pool amount_specified is_base_input)
        (transfer_fee_output env ctx pool amount_specified is_base_input),
      Step.transferIn (input_account ctx pool) (input_vault ctx pool)
        (adjusted_amount_specified env ctx amount_specified is_base_input)])
  else
    (.ok { amountResult := amount_result_of env ctx pool bal amount_specified is_base_input
           pool := pool
           balances := balances_after_out env ctx pool bal amount_specified is_base_input
           event := swap_event_of env ctx pool amount_specified is_base_input },
     success_trace env ctx pool amount_specified is_base_input)

/-- Shallow embedding of `swap_v2` (lines 190-219): run
`exact_internal_v2`, then enforce the slippage bound on the returned
amount — `require_gte!(amount_result, other_amount_threshold,
TooLittleOutputReceived)` for an exact input, and
`require_gte!(other_amount_threshold, amount_result, TooMuchInputPaid)`
for an exact output. -/
def swap_v2 (env : SwapEnv) (ctx : SwapAccounts) (pool : PoolState)
    (bal : Nat → Nat) (amount other_amount_threshold sqrt_price_limit_x64 : Nat)
    (is_base_input : Bool) : Except ErrorCode SwapOutcome × List Step :=
  match exact_internal_v2 env ctx pool bal amount sqrt_price_limit_x64 is_base_input with
  | (.error e, tr) => (.error e, tr)
  | (.ok out, tr) =>
    if is_base_input then
      if out.amountResult < other_amount_threshold then
        (.error .tooLittleOutputReceived, tr)
      else (.ok out, tr)
    else
      if other_amount_threshold < out.amountResult then
        (.error .tooMuchInputPaid, tr)
      else (.ok out, tr)

/-- The amount of the first inbound-transfer step of a trace, when one
occurred. -/
def transfer_in_amount : List Step → Option Nat
  | [] => none
  | Step.transferIn _ _ a :: _ => some a
  | _ :: rest => transfer_in_amount rest

/-- The amount of the first outbound-transfer step of a trace, when one
occurred. -/
def transfer_out_amount : List Step → Option Nat
  | [] => none
  | Step.transferOut _ _ a :: _ => some a
  | _ :: rest => transfer_out_amount rest

/-- The pool state carried by a successful result. -/
def result_pool (r : Except ErrorCode SwapOutcome × List Step) : Option PoolState :=
  match r.1 with
  | .ok out => some out.pool
  | .error _ => none

/-! ## Helper lemmas and concrete fixtures -/

/-- Pointwise evaluation of the transfer balance mutation. -/
theorem applyTransfer_apply (cfg : Option FeeConfig) (bal : Nat → Nat)
    (source dest amount x : Nat) :
    applyTransfer cfg bal source dest amount x =
      if x = dest then
        (if dest = source then bal source - amount else bal dest) +
          (amount - get_transfer_fee cfg amount)
      else if x = source then bal source - amount else bal x := rfl

/-- The forward transfer fee never exceeds the mint's cap. -/
theorem get_transfer_fee_le_cap (cfg : Option FeeConfig) (amount : Nat) :
    get_transfer_fee cfg amount ≤ capOf cfg := by
  cases cfg with
  | none => simp [get_transfer_fee, capOf]
  | some c =>
    simp only [get_transfer_fee, capOf]
    exact min_le_right _ _

/-- The inverse transfer fee never exceeds the mint's cap. -/
theorem get_transfer_inverse_fee_le_cap (cfg : Option FeeConfig) (netAmount : Nat) :
    get_transfer_inverse_fee cfg netAmount ≤ capOf cfg := by
  cases cfg with
  | none => simp [get_transfer_inverse_fee, capOf]
  | some c =>
    simp only [get_transfer_inverse_fee, capOf]
    split
    · exact Nat.zero_le _
    · exact min_le_right _ _

/-- Elimination of a successful run of `exact_internal_v2`: all guards
passed, the pool is carried through unchanged, the balances are the two
transfer mutations applied in order, and the trace is the full
`success_trace`. -/
theorem exact_internal_v2_ok {env : SwapEnv} {ctx : SwapAccounts} {pool : PoolState}
    {bal : Nat → Nat} {a lim : Nat} {bi : Bool} {out : SwapOutcome} {tr : List Step}
    (h : exact_internal_v2 env ctx pool bal a lim bi = (.ok out, tr)) :
    pool.open_time < env.blockTimestamp ∧
    out = { amountResult := amount_result_of env ctx pool bal a bi
            pool := pool
            balances := balances_after_out env ctx pool bal a bi
            event := swap_event_of env ctx pool a bi } ∧
    tr = success_trace env ctx pool a bi := by
  unfold exact_internal_v2 at h
  split at h
  · exact absurd h (by simp)
  next hgt =>
    split at h
    · exact absurd h (by simp)
    next =>
      split at h
      · exact absurd h (by simp)
      next =>
        injection h with hA hB
        injection hA with hA
        exact ⟨by omega, hA.symm, hB.symm⟩

/-- A standard account layout: all six addresses distinct; the input vault
holds mint 1 and the output vault holds mint 2. -/
def ctxStd : SwapAccounts :=
  { payer := 10, poolStateKey := 11, inputTokenAccount := 12, outputTokenAccount := 13,
    inputVault := 14, outputVault := 15, inputVaultMint := 1, outputVaultMint := 2 }

/-- The same layout with the vault mints flipped relative to the pool: the
input vault holds `token_mint_1`, so `zero_for_one` is `false`. -/
def ctxFlip : SwapAccounts :=
  { payer := 10, poolStateKey := 11, inputTokenAccount := 12, outputTokenAccount := 13,
    inputVault := 14, outputVault := 15, inputVaultMint := 2, outputVaultMint := 1 }

/-- A pool over mints 1 and 2 that opened at time 0, with a distinctive
price/liquidity/tick snapshot. -/
def poolStd : PoolState :=
  { token_mint_0 := 1, token_mint_1 := 2, open_time := 0, sqrt_price_x64 := 42,
    liquidity := 7, tick_current := 3 }

/-- The same pool, but opening only at time 100. -/
def poolLate : PoolState :=
  { token_mint_0 := 1, token_mint_1 := 2, open_time := 100, sqrt_price_x64 := 42,
    liquidity := 7, tick_current := 3 }

/-- Every account holds one million tokens. -/
def balRich : Nat → Nat := fun _ => 1000000

/-- Balances where the caller's output token account (address 13 in the
standard layouts) holds exactly 500 and every other account one million. -/
def balOut500 : Nat → Nat := fun x => if x = 13 then 500 else 1000000

/-- No mint carries a transfer-fee extension; the clock reads 10. -/
def envNoFee : SwapEnv := { blockTimestamp := 10, feeConfig := fun _ => none }

/-- Mint 1 carries a 1% fee capped at 100 units; the clock reads 10. -/
def envFeeIn : SwapEnv :=
  { blockTimestamp := 10,
    feeConfig := fun m => if m = 1 then some { rateBps := 100, maxFee := 100 } else none }

/-- Mint 1 carries a 1% fee capped at 100 units; the clock reads 100. -/
def envFeeInLate : SwapEnv :=
  { blockTimestamp := 100,
    feeConfig := fun m => if m = 1 then some { rateBps := 100, maxFee := 100 } else none }

/-- Mint 2 carries a 50% fee with a one-million cap; the clock reads 10. -/
def envFeeOutHalf : SwapEnv :=
  { blockTimestamp := 10,
    feeConfig := fun m => if m = 2 then some { rateBps := 5000, maxFee := 1000000 } else none }

/-! ## Claim theorems -/

/-- C1: the claim states that a PriceResolving step converts the
fee-adjusted specified amount into the counter-amount via the pricing
engine and updates `sqrt_price_x64`, `liquidity` and `tick_current`.  The
code never invokes the pricing engine (`swap_internal` is imported at
line 6 but never called) and never writes the pool: at the concrete
failing input (zero-fee mints, exact input of 1000) the swap succeeds,
both legs move exactly 1000, and the pool's price, liquidity and tick are
returned unchanged — the counter-amount is merely a fee subtraction. -/
theorem C1_no_price_resolution :
    result_pool (exact_internal_v2 envNoFee ctxStd poolStd balRich 1000 5 true) =
      some poolStd ∧
    transfer_in_amount (exact_internal_v2 envNoFee ctxStd poolStd balRich 1000 5 true).2 =
      some 1000 ∧
    transfer_out_amount (exact_internal_v2 envNoFee ctxStd poolStd balRich 1000 5 true).2 =
      some 1000 ∧
    poolStd.sqrt_price_x64 = 42 ∧ poolStd.liquidity = 7 ∧ poolStd.tick_current = 3 := by
  refine ⟨rfl, rfl, rfl, rfl, rfl, rfl⟩

/-- C2 counterexample: with a 1% fee (cap 100) on the input mint and an
exact-input request of 1000, the inbound leg moves 990 — the fee-reduced
amount — whereas the claim says the gross caller-specified 1000 is
pulled. -/
theorem C2_cex_inbound_moves_adjusted_amount :
    transfer_in_amount (exact_internal_v2 envFeeIn ctxStd poolStd balRich 1000 0 true).2 =
      some 990 ∧ (990 : Nat) ≠ 1000 := by
  exact ⟨rfl, by decide⟩

/-- C3 counterexample: with a 50% fee (large cap) on the output mint and an
exact input of 1000 on zero-fee input, the outbound leg moves 0, while the
claim's reading — gross counter-amount minus the forward fee of that leg —
predicts 1000 − 500 = 500: the code subtracts the inverse fee, not the
forward fee. -/
theorem C3_cex_outbound_subtracts_inverse_fee :
    transfer_out_amount (exact_internal_v2 envFeeOutHalf ctxStd poolStd balRich 1000 0 true).2 =
      some 0 ∧
    get_transfer_fee (envFeeOutHalf.feeConfig ctxStd.outputVaultMint) 1000 = 500 ∧
    (0 : Nat) ≠ 1000 - 500 := by
  exact ⟨rfl, by decide, by decide⟩

/-- C5: lines 91-100 transform the specified amount before anything else —
the first recorded step of every invocation is the fee adjustment, which
subtracts the input mint's forward fee for an exact input and adds the
output mint's inverse fee for an exact output; and in the spec's concrete
scenario (1% input fee capped at 100, specified amount 1000) the amount
entering all later computation is 990. -/
theorem C5_fee_adjusting_first (env : SwapEnv) (ctx : SwapAccounts) (pool : PoolState)
    (bal : Nat → Nat) (a lim : Nat) (bi : Bool) :
    (exact_internal_v2 env ctx pool bal a lim bi).2.head? =
      some (Step.feeAdjust
        (if bi then a - get_transfer_fee (env.feeConfig ctx.inputVaultMint) a
         else a + get_transfer_inverse_fee (env.feeConfig ctx.outputVaultMint) a)) ∧
    adjusted_amount_specified envFeeIn ctxStd 1000 true = 990 := by
  constructor
  · unfold exact_internal_v2
    split
    · simp [adjusted_amount_specified]
    · split
      · simp [adjusted_amount_specified]
      · split
        · simp [adjusted_amount_specified]
        · simp [success_trace, adjusted_amount_specified]
  · decide

/-- C7: the time gate is strict — an invocation fails with `PoolNotOpen`
exactly when the block timestamp is at most `pool.open_time` (so it fails
at equality), both for `exact_internal_v2` and for the enclosing
`swap_v2`. -/
theorem C7_time_gate_strict (env : SwapEnv) (ctx : SwapAccounts) (pool : PoolState)
    (bal : Nat → Nat) (a th lim : Nat) (bi : Bool) :
    ((exact_internal_v2 env ctx pool bal a lim bi).1 = .error .poolNotOpen ↔
      env.blockTimestamp ≤ pool.open_time) ∧
    ((swap_v2 env ctx pool bal a th lim bi).1 = .error .poolNotOpen ↔
      env.blockTimestamp ≤ pool.open_time) := by
  have h1 : (exact_internal_v2 env ctx pool bal a lim bi).1 = .error .poolNotOpen ↔
      env.blockTimestamp ≤ pool.open_time := by
    unfold exact_internal_v2
    split
    next hle => simpa using hle
    next hgt =>
      split
      · simpa using hgt
      · split
        · simpa using hgt
        · simpa using hgt
  refine ⟨h1, ?_⟩
  rcases hE : exact_internal_v2 env ctx pool bal a lim bi with ⟨r, tr2⟩
  rw [hE] at h1
  unfold swap_v2
  rw [hE]
  cases r with
  | error e => simpa using h1
  | ok out =>
    have hno : ¬ env.blockTimestamp ≤ pool.open_time := by simpa using h1
    by_cases hbi : bi
    · subst hbi
      by_cases hlt : out.amountResult < th <;> simp [hlt, hno]
    · simp only [Bool.not_eq_true] at hbi
      subst hbi
      by_cases hlt : th < out.amountResult <;> simp [hlt, hno]

/-- C8 counterexample: at an invocation against a pool that opens at time
100, attempted at time 100 (not yet open) with a 1% fee on the input mint,
the run aborts with `PoolNotOpen` but its trace already contains the fee
adjustment (1000 → 990): fee computation on the request's amount takes
place before the open-time validation, contradicting the claimed
Validating-before-FeeAdjusting order. -/
theorem C8_cex_fee_adjust_before_validation :
    exact_internal_v2 envFeeInLate ctxStd poolLate balRich 1000 0 true =
      (.error .poolNotOpen, [Step.feeAdjust 990]) ∧
    Step.feeAdjust 990 ∈ (exact_internal_v2 envFeeInLate ctxStd poolLate balRich 1000 0 true).2 := by
  exact ⟨rfl, by decide⟩

/-- C10 counterexample: with `zero_for_one = false` (input vault holds
`token_mint_1`), zero-fee mints, an exact input of 100 and threshold 500,
the caller's output token account already holds exactly 500 = threshold
before the swap, yet the invocation fails with `TooLittleOutputReceived`:
the role swap makes the inbound leg debit the caller's output account, so
its absolute post-swap balance (400) drops below the threshold. -/
theorem C10_cex_check_fires_despite_prior_balance :
    balOut500 ctxFlip.outputTokenAccount = 500 ∧
    (swap_v2 envNoFee ctxFlip poolStd balOut500 100 500 0 true).1 =
      .error .tooLittleOutputReceived := by
  exact ⟨rfl, rfl⟩

/-- C2 amended: on every successful invocation the inbound transfer moves
the fee-adjusted specified amount (gross minus the input mint's forward
fee for an exact input; gross plus the output mint's inverse fee for an
exact output) from the canonical source account into the canonical source
vault, and this inbound leg executes strictly before the outbound leg
(trace positions 4 and 5). -/
theorem C2_inbound_adjusted_and_ordered {env : SwapEnv} {ctx : SwapAccounts}
    {pool : PoolState} {bal : Nat → Nat} {a lim : Nat} {bi : Bool}
    {out : SwapOutcome} {tr : List Step}
    (h : exact_internal_v2 env ctx pool bal a lim bi = (.ok out, tr)) :
    transfer_in_amount tr = some (adjusted_amount_specified env ctx a bi) ∧
    tr.get? 4 = some (Step.transferIn (input_account ctx pool) (input_vault ctx pool)
      (adjusted_amount_specified env ctx a bi)) ∧
    tr.get? 5 = some (Step.transferOut (output_vault ctx pool) (output_account ctx pool)
      (amount_without_fee env ctx pool a bi)) := by
  obtain ⟨-, -, htr⟩ := exact_internal_v2_ok h
  subst htr
  refine ⟨?_, rfl, rfl⟩
  simp [success_trace, transfer_in_amount]

/-- C2 witness: the amended statement instantiated at a successful swap
with a 1% fee on the input mint and an exact input of 1000. -/
theorem C2_inbound_adjusted_and_ordered_witness :
    transfer_in_amount (success_trace envFeeIn ctxStd poolStd 1000 true) =
      some (adjusted_amount_specified envFeeIn ctxStd 1000 true) ∧
    (success_trace envFeeIn ctxStd poolStd 1000 true).get? 4 =
      some (Step.transferIn (input_account ctxStd poolStd) (input_vault ctxStd poolStd)
        (adjusted_amount_specified envFeeIn ctxStd 1000 true)) ∧
    (success_trace envFeeIn ctxStd poolStd 1000 true).get? 5 =
      some (Step.transferOut (output_vault ctxStd poolStd) (output_account ctxStd poolStd)
        (amount_without_fee envFeeIn ctxStd poolStd 1000 true)) :=
  @C2_inbound_adjusted_and_ordered envFeeIn ctxStd poolStd balRich 1000 0 true
    { amountResult := amount_result_of envFeeIn ctxStd poolStd balRich 1000 true
      pool := poolStd
      balances := balances_after_out envFeeIn ctxStd poolStd balRich 1000 true
      event := swap_event_of envFeeIn ctxStd poolStd 1000 true }
    (success_trace envFeeIn ctxStd poolStd 1000 true) (by rfl)

/-- C3 amended: on every successful invocation the outbound transfer moves
the fee-adjusted specified amount minus `transfer_fee_output` (the inverse
fee of the canonical output mint) when `zero_for_one`, and minus
`transfer_fee_input` (the forward fee of the canonical input mint) when
not; each of the two computed fees never exceeds its own mint's configured
maximum fee cap. -/
theorem C3_outbound_amount_and_caps {env : SwapEnv} {ctx : SwapAccounts}
    {pool : PoolState} {bal : Nat → Nat} {a lim : Nat} {bi : Bool}
    {out : SwapOutcome} {tr : List Step}
    (h : exact_internal_v2 env ctx pool bal a lim bi = (.ok out, tr)) :
    transfer_out_amount tr = some (amount_without_fee env ctx pool a bi) ∧
    amount_without_fee env ctx pool a bi =
      adjusted_amount_specified env ctx a bi -
        (if zero_for_one ctx pool then transfer_fee_output env ctx pool a bi
         else transfer_fee_input env ctx pool a bi) ∧
    transfer_fee_input env ctx pool a bi ≤ capOf (env.feeConfig (input_mint ctx pool)) ∧
    transfer_fee_output env ctx pool a bi ≤ capOf (env.feeConfig (output_mint ctx pool)) := by
  obtain ⟨-, -, htr⟩ := exact_internal_v2_ok h
  subst htr
  refine ⟨?_, ?_, ?_, ?_⟩
  · simp [success_trace, transfer_out_amount]
  · by_cases hz : zero_for_one ctx pool <;> simp [amount_without_fee, hz]
  · exact get_transfer_fee_le_cap _ _
  · exact get_transfer_inverse_fee_le_cap _ _

/-- C3 witness: the amended statement instantiated at a successful swap
with a 50% fee on the output mint and an exact input of 1000. -/
theorem C3_outbound_amount_and_caps_witness :
    transfer_out_amount (success_trace envFeeOutHalf ctxStd poolStd 1000 true) =
      some (amount_without_fee envFeeOutHalf ctxStd poolStd 1000 true) ∧
    amount_without_fee envFeeOutHalf ctxStd poolStd 1000 true =
      adjusted_amount_specified envFeeOutHalf ctxStd 1000 true -
        (if zero_for_one ctxStd poolStd then
          transfer_fee_output envFeeOutHalf ctxStd poolStd 1000 true
         else transfer_fee_input envFeeOutHalf ctxStd poolStd 1000 true) ∧
    transfer_fee_input envFeeOutHalf ctxStd poolStd 1000 true ≤
      capOf (envFeeOutHalf.feeConfig (input_mint ctxStd poolStd)) ∧
    transfer_fee_output envFeeOutHalf ctxStd poolStd 1000 true ≤
      capOf (envFeeOutHalf.feeConfig (output_mint ctxStd poolStd)) :=
  @C3_outbound_amount_and_caps envFeeOutHalf ctxStd poolStd balRich 1000 0 true
    { amountResult := amount_result_of envFeeOutHalf ctxStd poolStd balRich 1000 true
      pool := poolStd
      balances := balances_after_out envFeeOutHalf ctxStd poolStd balRich 1000 true
      event := swap_event_of envFeeOutHalf ctxStd poolStd 1000 true }
    (success_trace envFeeOutHalf ctxStd poolStd 1000 true) (by rfl)

/-- C4: on every successful invocation the direction flag carried by the
emitted event is `(input_vault.mint == pool.token_mint_0)`, and the
canonicalization is consistent with it: when the flag is `false` the
inbound leg debits the caller-designated output token account (into the
caller-designated output vault), and when it is `true` the inbound leg
debits the caller-designated input token account. -/
theorem C4_direction_and_role_swap {env : SwapEnv} {ctx : SwapAccounts}
    {pool : PoolState} {bal : Nat → Nat} {a lim : Nat} {bi : Bool}
    {out : SwapOutcome} {tr : List Step}
    (h : exact_internal_v2 env ctx pool bal a lim bi = (.ok out, tr)) :
    out.event.zero_for_one = (ctx.inputVaultMint == pool.token_mint_0) ∧
    (zero_for_one ctx pool = false →
      tr.get? 4 = some (Step.transferIn ctx.outputTokenAccount ctx.outputVault
        (adjusted_amount_specified env ctx a bi))) ∧
    (zero_for_one ctx pool = true →
      tr.get? 4 = some (Step.transferIn ctx.inputTokenAccount ctx.inputVault
        (adjusted_amount_specified env ctx a bi))) := by
  obtain ⟨-, hout, htr⟩ := exact_internal_v2_ok h
  subst hout
  subst htr
  refine ⟨rfl, ?_, ?_⟩
  · intro hz
    simp [success_trace, input_account, input_vault, hz]
  · intro hz
    simp [success_trace, input_account, input_vault, hz]

/-- C4 witness: instantiated at a successful swap with the vault mints
flipped (`zero_for_one = false`), where the inbound leg debits the
caller's output token account. -/
theorem C4_direction_and_role_swap_witness :
    (swap_event_of envNoFee ctxFlip poolStd 1000 true).zero_for_one =
      (ctxFlip.inputVaultMint == poolStd.token_mint_0) ∧
    (success_trace envNoFee ctxFlip poolStd 1000 true).get? 4 =
      some (Step.transferIn ctxFlip.outputTokenAccount ctxFlip.outputVault
        (adjusted_amount_specified envNoFee ctxFlip 1000 true)) :=
  ⟨(@C4_direction_and_role_swap envNoFee ctxFlip poolStd balRich 1000 0 true
      { amountResult := amount_result_of envNoFee ctxFlip poolStd balRich 1000 true
        pool := poolStd
        balances := balances_after_out envNoFee ctxFlip poolStd balRich 1000 true
        event := swap_event_of envNoFee ctxFlip poolStd 1000 true }
      (success_trace envNoFee ctxFlip poolStd 1000 true) (by rfl)).1,
   (@C4_direction_and_role_swap envNoFee ctxFlip poolStd balRich 1000 0 true
      { amountResult := amount_result_of envNoFee ctxFlip poolStd balRich 1000 true
        pool := poolStd
        balances := balances_after_out envNoFee ctxFlip poolStd balRich 1000 true
        event := swap_event_of envNoFee ctxFlip poolStd 1000 true }
      (success_trace envNoFee ctxFlip poolStd 1000 true) (by rfl)).2.1 rfl⟩

/-- C6: after a completed settlement, `swap_v2` enforces the slippage
bound on the realized amount — for an exact input it fails with
`TooLittleOutputReceived` if and only if the realized amount is strictly
below the threshold, for an exact output it fails with `TooMuchInputPaid`
if and only if the realized amount strictly exceeds the threshold, and
otherwise it returns the settled outcome. -/
theorem C6_slippage_guard {env : SwapEnv} {ctx : SwapAccounts} {pool : PoolState}
    {bal : Nat → Nat} {a th lim : Nat} {bi : Bool} {out : SwapOutcome} {tr : List Step}
    (h : exact_internal_v2 env ctx pool bal a lim bi = (.ok out, tr)) :
    (bi = true →
      (((swap_v2 env ctx pool bal a th lim bi).1 = .error .tooLittleOutputReceived) ↔
        out.amountResult < th) ∧
      (((swap_v2 env ctx pool bal a th lim bi).1 = .ok out) ↔ th ≤ out.amountResult)) ∧
    (bi = false →
      (((swap_v2 env ctx pool bal a th lim bi).1 = .error .tooMuchInputPaid) ↔
        th < out.amountResult) ∧
      (((swap_v2 env ctx pool bal a th lim bi).1 = .ok out) ↔ out.amountResult ≤ th)) := by
  unfold swap_v2
  rw [h]
  constructor
  · rintro rfl
    by_cases hlt : out.amountResult < th <;> simp [hlt] <;> omega
  · rintro rfl
    by_cases hlt : th < out.amountResult <;> simp [hlt] <;> omega

/-- C6 witness: the slippage guard instantiated at a successful exact-input
swap (zero fees, amount 1000, threshold 900). -/
theorem C6_slippage_guard_witness :
    (((swap_v2 envNoFee ctxStd poolStd balRich 1000 900 0 true).1 =
        .error .tooLittleOutputReceived) ↔
      (amount_result_of envNoFee ctxStd poolStd balRich 1000 true < 900)) ∧
    (((swap_v2 envNoFee ctxStd poolStd balRich 1000 900 0 true).1 =
        .ok { amountResult := amount_result_of envNoFee ctxStd poolStd balRich 1000 true
              pool := poolStd
              balances := balances_after_out envNoFee ctxStd poolStd balRich 1000 true
              event := swap_event_of envNoFee ctxStd poolStd 1000 true }) ↔
      900 ≤ amount_result_of envNoFee ctxStd poolStd balRich 1000 true) :=
  (@C6_slippage_guard envNoFee ctxStd poolStd balRich 1000 900 0 true
    { amountResult := amount_result_of envNoFee ctxStd poolStd balRich 1000 true
      pool := poolStd
      balances := balances_after_out envNoFee ctxStd poolStd balRich 1000 true
      event := swap_event_of envNoFee ctxStd poolStd 1000 true }
    (success_trace envNoFee ctxStd poolStd 1000 true) (by rfl)).1 rfl

/-- C8 amended: the orchestrator runs FeeAdjusting first and Validating
second (the reverse of the claimed order for those two steps), then
DirectionResolving, fee computation, the inbound transfer, the outbound
transfer, Reconciling and Emitting; for a pool that is not yet open the
fee adjustment of the specified amount has already been computed when the
invocation aborts with `PoolNotOpen`, and nothing after it executes. -/
theorem C8_step_order (env : SwapEnv) (ctx : SwapAccounts) (pool : PoolState)
    (bal : Nat → Nat) (a lim : Nat) (bi : Bool) :
    ((exact_internal_v2 env ctx pool bal a lim bi).1 = .error .poolNotOpen →
      (exact_internal_v2 env ctx pool bal a lim bi).2 =
        [Step.feeAdjust (adjusted_amount_specified env ctx a bi)]) ∧
    (∀ out tr, exact_internal_v2 env ctx pool bal a lim bi = (.ok out, tr) →
      tr = success_trace env ctx pool a bi) := by
  constructor
  · intro h
    by_cases h1 : env.blockTimestamp ≤ pool.open_time
    · simp [exact_internal_v2, h1]
    · exfalso
      revert h
      simp only [exact_internal_v2, if_neg h1]
      split
      · simp
      · split <;> simp
  · intro out tr h
    exact (exact_internal_v2_ok h).2.2

/-- C8 witness: at the not-yet-open concrete invocation the trace is
exactly the fee adjustment, and at a successful concrete invocation the
trace is the full ordered `success_trace`. -/
theorem C8_step_order_witness :
    (exact_internal_v2 envFeeInLate ctxStd poolLate balRich 1000 0 true).2 =
      [Step.feeAdjust (adjusted_amount_specified envFeeInLate ctxStd 1000 true)] ∧
    (exact_internal_v2 envFeeIn ctxStd poolStd balRich 1000 0 true).2 =
      success_trace envFeeIn ctxStd poolStd 1000 true :=
  ⟨(C8_step_order envFeeInLate ctxStd poolLate balRich 1000 0 true).1 rfl,
   (C8_step_order envFeeIn ctxStd poolStd balRich 1000 0 true).2
     { amountResult := amount_result_of envFeeIn ctxStd poolStd balRich 1000 true
       pool := poolStd
       balances := balances_after_out envFeeIn ctxStd poolStd balRich 1000 true
       event := swap_event_of envFeeIn ctxStd poolStd 1000 true }
     (exact_internal_v2 envFeeIn ctxStd poolStd balRich 1000 0 true).2 (by rfl)⟩

/-- C10 amended: the realized amount `swap_v2` compares against the
threshold is the absolute post-swap balance of the reloaded user account
(output account for exact input, input account for exact output), not the
delta of this swap; consequently, when `zero_for_one` is `true` an
exact-input swap whose output token account (distinct from the debited
input account and from the paying vault) already holds at least the
threshold can never fail the slippage check — but when `zero_for_one` is
`false` the inbound leg debits the caller's output account and the check
can fire despite a sufficient prior balance. -/
theorem C10_absolute_balance_threshold {env : SwapEnv} {ctx : SwapAccounts}
    {pool : PoolState} {bal : Nat → Nat} {a th lim : Nat} {bi : Bool}
    {out : SwapOutcome} {tr : List Step}
    (h : exact_internal_v2 env ctx pool bal a lim bi = (.ok out, tr)) :
    out.amountResult = (if bi then out.balances ctx.outputTokenAccount
                        else out.balances ctx.inputTokenAccount) ∧
    (bi = true → zero_for_one ctx pool = true →
      ctx.outputTokenAccount ≠ ctx.inputTokenAccount →
      ctx.outputTokenAccount ≠ ctx.outputVault →
      th ≤ bal ctx.outputTokenAccount →
      th ≤ out.amountResult ∧
      (swap_v2 env ctx pool bal a th lim bi).1 = .ok out) := by
  obtain ⟨-, hout, -⟩ := exact_internal_v2_ok h
  constructor
  · subst hout
    by_cases hbi : bi <;> simp [amount_result_of, hbi]
  · rintro rfl hz h1 h2 hth
    have hiacc : input_account ctx pool = ctx.inputTokenAccount := by
      simp [input_account, hz]
    have hoacc : output_account ctx pool = ctx.outputTokenAccount := by
      simp [output_account, hz]
    have hov : output_vault ctx pool = ctx.outputVault := by
      simp [output_vault, hz]
    have step1 : bal ctx.outputTokenAccount ≤
        balances_after_in env ctx pool bal a true ctx.outputTokenAccount := by
      unfold balances_after_in
      rw [applyTransfer_apply, hiacc]
      split_ifs with hv hvs
      · exact absurd (hv.trans hvs) h1
      · rw [← hv]; omega
      · exact Nat.le_refl _
    have step2 : balances_after_in env ctx pool bal a true ctx.outputTokenAccount ≤
        balances_after_out env ctx pool bal a true ctx.outputTokenAccount := by
      unfold balances_after_out
      rw [applyTransfer_apply, hoacc, hov, if_pos rfl, if_neg h2]
      omega
    have hge : th ≤ out.amountResult := by
      subst hout
      show th ≤ amount_result_of env ctx pool bal a true
      unfold amount_result_of
      simp only [if_true]
      omega
    refine ⟨hge, ?_⟩
    unfold swap_v2
    rw [h]
    simp [Nat.not_lt.mpr hge]

/-- C10 witness: instantiated at a successful `zero_for_one = true`
exact-input swap with all accounts distinct, zero fees, amount 100 and
threshold 500, where the output account already holds one million. -/
theorem C10_absolute_balance_threshold_witness :
    amount_result_of envNoFee ctxStd poolStd balRich 100 true =
      balances_after_out envNoFee ctxStd poolStd balRich 100 true
        ctxStd.outputTokenAccount ∧
    500 ≤ amount_result_of envNoFee ctxStd poolStd balRich 100 true ∧
    (swap_v2 envNoFee ctxStd poolStd balRich 100 500 0 true).1 =
      .ok { amountResult := amount_result_of envNoFee ctxStd poolStd balRich 100 true
            pool := poolStd
            balances := balances_after_out envNoFee ctxStd poolStd balRich 100 true
            event := swap_event_of envNoFee ctxStd poolStd 100 true } :=
  have happ := @C10_absolute_balance_threshold envNoFee ctxStd poolStd balRich 100 500 0 true
    { amountResult := amount_result_of envNoFee ctxStd poolStd balRich 100 true
      pool := poolStd
      balances := balances_after_out envNoFee ctxStd poolStd balRich 100 true
      event := swap_event_of envNoFee ctxStd poolStd 100 true }
    (success_trace envNoFee ctxStd poolStd 100 true) (by rfl)
  ⟨happ.1, (happ.2 rfl rfl (by decide) (by decide) (by decide)).1,
   (happ.2 rfl rfl (by decide) (by decide) (by decide)).2⟩

end RaydiumSwapV2
